import Mathlib

/-!
Verification development for the pico-examples sensor telemetry uplink
pipeline (`pico_w/adafruit_io_bmp280/adafruit_io_bmp280.c`).

The C program is shallowly embedded: 32-bit signed arithmetic is `Int`
with an explicit wrap to `[-2^31, 2^31)` at every operation whose C
counterpart computes in `int32_t`, 32-bit unsigned arithmetic is `Int`
with reduction modulo `2^32`, and the callback-driven TLS POST state
machine becomes explicit state-passing functions over a record mirroring
`HTTP_POST_STATE_T`.  External collaborators (lwIP, the pico SDK event
loop) appear as boolean/value parameters deciding their outcomes.
-/

set_option maxRecDepth 4096

namespace PicoExamples

/-! ### Machine arithmetic helpers

`wrap32` is the value of an `int32_t` holding an arbitrary integer
(two's-complement wrap-around); `u32` is the value of a `uint32_t`
(reduction mod 2^32); `sra` is the C `>>` on a signed 32-bit value
(arithmetic shift, i.e. floor division by a power of two — `Int`
division in Lean is Euclidean division, which coincides with floor
division for positive divisors); `shl` is `<<`. -/

def wrap32 (x : Int) : Int := (x + 2147483648) % 4294967296 - 2147483648

def u32 (x : Int) : Int := x % 4294967296

def sra (x : Int) (n : Nat) : Int := x / 2 ^ n

def shl (x : Int) (n : Nat) : Int := x * 2 ^ n

theorem wrap32_bounds (x : Int) : -2147483648 ≤ wrap32 x ∧ wrap32 x < 2147483648 := by
  unfold wrap32
  omega

theorem wrap32_eq_self {x : Int} (h1 : -2147483648 ≤ x) (h2 : x < 2147483648) :
    wrap32 x = x := by
  unfold wrap32
  omega

theorem u32_bounds (x : Int) : 0 ≤ u32 x ∧ u32 x < 4294967296 := by
  unfold u32
  omega

/-- A nonzero `int32_t` value casts to a nonzero `uint32_t` value. -/
theorem u32_ne_zero {x : Int} (h1 : -4294967296 < x) (h2 : x < 4294967296)
    (h3 : x ≠ 0) : u32 x ≠ 0 := by
  unfold u32
  omega

/-- Range of `(int32_t)(w) >> n` for a wrapped 32-bit value `w`. -/
theorem sra_wrap32_range (x : Int) (n : Nat) :
    -2147483648 / 2 ^ n ≤ sra (wrap32 x) n ∧ sra (wrap32 x) n ≤ 2147483647 / 2 ^ n := by
  have hb := wrap32_bounds x
  have hpos : (0 : Int) < 2 ^ n := by positivity
  constructor
  · exact Int.ediv_le_ediv hpos hb.1
  · exact Int.ediv_le_ediv hpos (by omega)

/-! ### CompensationEngine (`struct bmp280_calib_param`, lines 54-67)

The calibration coefficients are 16-bit quantities in C; the embedding
keeps them as unconstrained `Int` (every theorem below holds for all
integer values, which subsumes the 16-bit ranges). -/

structure bmp280_calib_param where
  dig_t1 : Int
  dig_t2 : Int
  dig_t3 : Int
  dig_p1 : Int
  dig_p2 : Int
  dig_p3 : Int
  dig_p4 : Int
  dig_p5 : Int
  dig_p6 : Int
  dig_p7 : Int
  dig_p8 : Int
  dig_p9 : Int
deriving DecidableEq

/-- `bmp280_convert` (lines 122-127): the fine-temperature intermediate.

    var1 = ((((temp >> 3) - ((int32_t)dig_t1 << 1))) * ((int32_t)dig_t2)) >> 11;
    var2 = (((((temp >> 4) - ((int32_t)dig_t1)) * ((temp >> 4) - ((int32_t)dig_t1))) >> 12)
            * ((int32_t)dig_t3)) >> 14;
    return var1 + var2;

Each multiplication is performed in `int32_t` and hence wrapped; the
final sum cannot overflow (see `bmp280_convert_range`). -/
def bmp280_convert (temp : Int) (params : bmp280_calib_param) : Int :=
  let var1 := sra (wrap32 ((sra temp 3 - shl params.dig_t1 1) * params.dig_t2)) 11
  let var2 := sra (wrap32 (sra (wrap32 ((sra temp 4 - params.dig_t1) *
      (sra temp 4 - params.dig_t1))) 12 * params.dig_t3)) 14
  var1 + var2

/-- `bmp280_convert_temp` (lines 129-132):
    `return (t_fine * 5 + 128) >> 8;` computed in `int32_t`. -/
def bmp280_convert_temp (temp : Int) (params : bmp280_calib_param) : Int :=
  let t_fine := bmp280_convert temp params
  sra (wrap32 (t_fine * 5 + 128)) 8

/-- The divisor variable of `bmp280_convert_pressure` (lines 138-143):
the chain of assignments to `var1` up to the zero test at line 144.

    var1 = (((int32_t)t_fine) >> 1) - (int32_t)64000;
    ...
    var1 = (((dig_p3 * (((var1 >> 2) * (var1 >> 2)) >> 13)) >> 3)
            + (((int32_t)dig_p2 * var1) >> 1)) >> 18;
    var1 = ((((32768 + var1)) * ((int32_t)dig_p1)) >> 15);
-/
def pressureVar1 (temp : Int) (params : bmp280_calib_param) : Int :=
  let t_fine := bmp280_convert temp params
  let var1 := sra t_fine 1 - 64000
  let var1 := sra (wrap32 (sra (wrap32 (params.dig_p3 *
      sra (wrap32 (sra var1 2 * sra var1 2)) 13)) 3 +
      sra (wrap32 (params.dig_p2 * var1)) 1)) 18
  sra (wrap32 ((32768 + var1) * params.dig_p1)) 15

/-- `bmp280_convert_pressure` (lines 134-157).  `converted` is a
`uint32_t`, so it is reduced mod 2^32 at every step; the two divisions
(lines 149 and 151) both divide by `(uint32_t)var1`, and both are
guarded by the `var1 == 0` early return at lines 144-146.  The final
`return converted;` converts the `uint32_t` back to the `int32_t`
return type. -/
def bmp280_convert_pressure (pressure temp : Int) (params : bmp280_calib_param) : Int :=
  let t_fine := bmp280_convert temp params
  let var1 := sra t_fine 1 - 64000
  let var2 := wrap32 (sra (wrap32 (sra var1 2 * sra var1 2)) 11 * params.dig_p6)
  let var2 := wrap32 (var2 + wrap32 (shl (wrap32 (var1 * params.dig_p5)) 1))
  let var2 := wrap32 (sra var2 2 + shl params.dig_p4 16)
  let var1 := pressureVar1 temp params
  if var1 = 0 then
    0
  else
    let converted := u32 (u32 (u32 (wrap32 (1048576 - pressure)) - sra var2 12) * 3125)
    let converted :=
      if converted < 2147483648 then
        u32 (shl converted 1) / u32 var1
      else
        u32 ((converted / u32 var1) * 2)
    let var1 := sra (wrap32 (params.dig_p9 *
        wrap32 (sra (u32 (sra converted 3 * sra converted 3)) 13))) 12
    let var2 := sra (wrap32 (wrap32 (sra converted 2) * params.dig_p8)) 13
    wrap32 (u32 (wrap32 (wrap32 converted + sra (wrap32 (var1 + var2 + params.dig_p7)) 4)))

/-- An all-zero calibration record, used as a concrete evaluation point. -/
def zeroCalib : bmp280_calib_param :=
  ⟨0, 0, 0, 0, 0, 0, 0, 0, 0, 0, 0, 0⟩

/-- `zeroCalib` with `dig_t3` changed. -/
def calibT3 : bmp280_calib_param :=
  ⟨0, 0, 1, 0, 0, 0, 0, 0, 0, 0, 0, 0⟩

/-- Range of the fine-temperature intermediate: `var1` is a wrapped
32-bit value shifted right by 11 and `var2` one shifted right by 14,
so their sum lies well inside the `int32_t` range. -/
theorem bmp280_convert_range (temp : Int) (params : bmp280_calib_param) :
    -1179648 ≤ bmp280_convert temp params ∧ bmp280_convert temp params ≤ 1179647 := by
  have h1 := sra_wrap32_range ((sra temp 3 - shl params.dig_t1 1) * params.dig_t2) 11
  have h2 := sra_wrap32_range (sra (wrap32 ((sra temp 4 - params.dig_t1) *
      (sra temp 4 - params.dig_t1))) 12 * params.dig_t3) 14
  simp only [bmp280_convert]
  norm_num at h1 h2
  omega

/-- `zeroCalib` with `dig_p1 = 1`: makes the pressure divisor nonzero. -/
def calibP1 : bmp280_calib_param :=
  ⟨0, 0, 0, 1, 0, 0, 0, 0, 0, 0, 0, 0⟩

/-- A calibration record agreeing with `calibT3` on the three
temperature coefficients but differing on every pressure coefficient. -/
def calibPFull : bmp280_calib_param :=
  ⟨0, 0, 1, 1, 2, 3, 4, 5, 6, 7, 8, 9⟩

/-- Range of `(int32_t)(w) >> 15` for a wrapped 32-bit value. -/
theorem sra15_range (x : Int) : -65536 ≤ sra (wrap32 x) 15 ∧ sra (wrap32 x) 15 ≤ 65535 := by
  have h := sra_wrap32_range x 15
  norm_num at h
  omega

/-- The divisor variable of the pressure formula is a shifted wrapped
32-bit value, hence far inside the 32-bit range. -/
theorem pressureVar1_range (temp : Int) (params : bmp280_calib_param) :
    -65536 ≤ pressureVar1 temp params ∧ pressureVar1 temp params ≤ 65535 := by
  simp only [pressureVar1]
  exact sra15_range _

/-- C4: if the intermediate divisor `var1` of the pressure compensation
polynomial is zero, `bmp280_convert_pressure` returns 0; and whenever
`var1` is nonzero, the `uint32_t` divisor actually used by both division
branches (lines 149 and 151) is nonzero, so no division by zero is
reachable and the function is total. -/
theorem pressure_division_guarded (pressure temp : Int) (params : bmp280_calib_param) :
    (pressureVar1 temp params = 0 → bmp280_convert_pressure pressure temp params = 0) ∧
    (pressureVar1 temp params ≠ 0 → u32 (pressureVar1 temp params) ≠ 0) := by
  constructor
  · intro h
    simp only [bmp280_convert_pressure]
    rw [if_pos h]
  · intro h
    have hr := pressureVar1_range temp params
    exact u32_ne_zero (by omega) (by omega) h

/-- Witness for C4: with the all-zero calibration the divisor is zero
and the pressure returned is 0; with `dig_p1 = 1` the divisor is
nonzero, and so is its `uint32_t` cast. -/
theorem pressure_division_guarded_witness :
    bmp280_convert_pressure 0 0 zeroCalib = 0 ∧ u32 (pressureVar1 0 calibP1) ≠ 0 :=
  ⟨(pressure_division_guarded 0 0 zeroCalib).1 (by decide),
   (pressure_division_guarded 0 0 calibP1).2 (by decide)⟩

/-- C7: the final temperature is the fine-temperature intermediate
scaled by 5/256 with floor-truncation semantics — the `int32_t`
computation `(t_fine * 5 + 128) >> 8` never wraps, because the
intermediate always lies within `±2^21`, so it equals the exact integer
floor division by 256. -/
theorem bmp280_convert_temp_eq (temp : Int) (params : bmp280_calib_param) :
    bmp280_convert_temp temp params = (bmp280_convert temp params * 5 + 128) / 256 := by
  have h := bmp280_convert_range temp params
  simp only [bmp280_convert_temp]
  rw [wrap32_eq_self (by omega) (by omega)]
  unfold sra
  norm_num

/-- C8 counterexample: two calibration records that agree on `dig_t1`
and `dig_t2` but differ on `dig_t3` give different fine-temperature
intermediates at raw temperature 524288 (0 versus 16), so the
intermediate does not depend on only two coefficients. -/
theorem convert_uses_dig_t3 :
    zeroCalib.dig_t1 = calibT3.dig_t1 ∧ zeroCalib.dig_t2 = calibT3.dig_t2 ∧
    bmp280_convert 524288 zeroCalib ≠ bmp280_convert 524288 calibT3 := by
  decide

/-- C8 amended: the fine-temperature intermediate is determined by the
raw temperature and the three temperature coefficients `dig_t1`,
`dig_t2`, `dig_t3`; varying any pressure coefficient does not change it. -/
theorem convert_determined_by_t_coeffs (temp : Int) (p q : bmp280_calib_param)
    (h1 : p.dig_t1 = q.dig_t1) (h2 : p.dig_t2 = q.dig_t2) (h3 : p.dig_t3 = q.dig_t3) :
    bmp280_convert temp p = bmp280_convert temp q := by
  simp only [bmp280_convert, h1, h2, h3]

/-- Witness for the amended C8: `calibT3` and `calibPFull` share the
temperature coefficients and give equal intermediates. -/
theorem convert_determined_by_t_coeffs_witness :
    bmp280_convert 524288 calibT3 = bmp280_convert 524288 calibPFull :=
  convert_determined_by_t_coeffs 524288 calibT3 calibPFull rfl rfl rfl

/-! ### UplinkStateMachine (`HTTP_POST_STATE_T`, lines 69-75, and the
`http_post_*` callbacks, lines 160-333)

The transport handle (`struct altcp_pcb *pcb`) is modelled as
`Option Nat` (`none` = NULL); response fragments and the request buffer
are `List Char`; error codes keep their C integer values.  The outcomes
of external collaborators — whether `altcp_close` succeeds, whether
`altcp_tls_new` succeeds, how DNS resolution is delivered — are
parameters. -/

/-- Pico SDK error code (pico/error.h). -/
def PICO_ERROR_TIMEOUT : Int := -1

/-- Pico SDK error code (pico/error.h). -/
def PICO_ERROR_GENERIC : Int := -2

/-- lwIP error codes used by the state machine. -/
def ERR_OK : Int := 0

def ERR_ABRT : Int := -13

/-- `HTTP_POST_STATE_T` (lines 69-75). -/
structure HTTP_POST_STATE_T where
  pcb : Option Nat
  complete : Bool
  error : Int
  http_request : List Char
  timeout : Int
deriving DecidableEq

/-- `http_post_close` (lines 160-177): set the completion flag, and if
the handle is live, unregister its callbacks, close it (abort on close
failure), and null the handle.  `closeOk` is the outcome of the
external `altcp_close`. -/
def http_post_close (closeOk : Bool) (state : HTTP_POST_STATE_T) :
    HTTP_POST_STATE_T × Int :=
  let state := { state with complete := true }
  match state.pcb with
  | none => (state, ERR_OK)
  | some _ =>
      let err := if closeOk then ERR_OK else ERR_ABRT
      ({ state with pcb := none }, err)

/-- Outcome branches of the status-line check in `http_post_recv`
(lines 255-267). -/
inductive StatusClass where
  | success
  | authFailure
  | notFound
  | unexpectedStatus
deriving DecidableEq

/-- The status-line classifier of `http_post_recv` (lines 256-267):
an if-chain of `strncmp(buf, lit, 12) == 0` tests against the literal
line starts `"HTTP/1.1 200"`, `"HTTP/1.1 201"`, `"HTTP/1.1 401"`,
`"HTTP/1.1 404"`. -/
def classifyStatus (buf : List Char) : StatusClass :=
  if "HTTP/1.1 200".data.isPrefixOf buf || "HTTP/1.1 201".data.isPrefixOf buf then
    StatusClass.success
  else if "HTTP/1.1 401".data.isPrefixOf buf then
    StatusClass.authFailure
  else if "HTTP/1.1 404".data.isPrefixOf buf then
    StatusClass.notFound
  else
    StatusClass.unexpectedStatus

/-- `http_post_recv` (lines 241-273).  `p = none` models the NULL pbuf
(end of stream): the code sets `state->error = 0` (line 245) and calls
`http_post_close`.  A non-empty delivery is copied into a 511-byte
prefix buffer (lines 249-252) and its status line classified: 200/201
record error 0, 401 and 404 record `PICO_ERROR_GENERIC`, any other line
leaves the error field untouched (lines 256-267). -/
def http_post_recv (closeOk : Bool) (state : HTTP_POST_STATE_T)
    (p : Option (List Char)) : HTTP_POST_STATE_T × Int :=
  match p with
  | none => http_post_close closeOk { state with error := 0 }
  | some payload =>
      if 0 < payload.length then
        let buf := payload.take 511
        match classifyStatus buf with
        | StatusClass.success => ({ state with error := 0 }, ERR_OK)
        | StatusClass.authFailure => ({ state with error := PICO_ERROR_GENERIC }, ERR_OK)
        | StatusClass.notFound => ({ state with error := PICO_ERROR_GENERIC }, ERR_OK)
        | StatusClass.unexpectedStatus => (state, ERR_OK)
      else
        (state, ERR_OK)

/-- `http_post_poll` (lines 207-212): the lwIP poll callback records the
timeout outcome and tears the connection down. -/
def http_post_poll (closeOk : Bool) (state : HTTP_POST_STATE_T) :
    HTTP_POST_STATE_T × Int :=
  http_post_close closeOk { state with error := PICO_ERROR_TIMEOUT }

/-- `http_post_err` (lines 214-239): close, then record a generic
error. -/
def http_post_err (closeOk : Bool) (state : HTTP_POST_STATE_T) : HTTP_POST_STATE_T :=
  let state := (http_post_close closeOk state).1
  { state with error := PICO_ERROR_GENERIC }

/-- `http_post_connected` (lines 179-205): on a connect error, close;
otherwise write the request (`writeOk` is the `altcp_write` outcome) and
close on write failure. -/
def http_post_connected (closeOk writeOk : Bool) (state : HTTP_POST_STATE_T)
    (err : Int) : HTTP_POST_STATE_T × Int :=
  if err ≠ ERR_OK then
    http_post_close closeOk state
  else if writeOk then
    (state, ERR_OK)
  else
    http_post_close closeOk state

/-- How the external `dns_gethostbyname` answers (lines 315-321). -/
inductive DnsOutcome where
  | cacheHit
  | inProgress
  | failure
deriving DecidableEq

/-- Outcomes of the external collaborators consulted by
`http_post_open`. -/
structure OpenEnv where
  pcbOk : Bool
  dns : DnsOutcome
  closeOk : Bool
deriving DecidableEq

/-- `http_post_open` (lines 300-324): create the TLS pcb, register the
callbacks — in particular the poll callback with interval
`state->timeout * 2` (line 309) — then start DNS resolution.  Returns
the updated state, the boolean result, and the poll interval registered
on the handle (`none` when no handle was created). -/
def http_post_open (env : OpenEnv) (state : HTTP_POST_STATE_T) :
    HTTP_POST_STATE_T × Bool × Option Int :=
  if env.pcbOk then
    let state := { state with pcb := some 1 }
    let interval := some (state.timeout * 2)
    match env.dns with
    | DnsOutcome.cacheHit => (state, true, interval)
    | DnsOutcome.inProgress => (state, true, interval)
    | DnsOutcome.failure => ((http_post_close env.closeOk state).1, false, interval)
  else
    (state, false, none)

/-- The give-up branch of the caller's wall-clock wait loop in
`send_to_adafruit_io` (lines 382-387): when the 30-second deadline is
reached, the caller records `PICO_ERROR_TIMEOUT` and sets the
completion flag itself — without touching the handle. -/
def wait_loop_give_up (state : HTTP_POST_STATE_T) : HTTP_POST_STATE_T :=
  { state with error := PICO_ERROR_TIMEOUT, complete := true }

/-- The caller's final verdict (line 396): `success = (state->error == 0)`. -/
def uplinkSuccess (state : HTTP_POST_STATE_T) : Bool :=
  state.error == 0

/-! ### TelemetryFormatter and `send_to_adafruit_io` (lines 335-400)

The composed request message is built exactly as the `snprintf` format
string at lines 353-362 dictates.  The float formatting of the JSON
body is outside the integer embedding, so the body is passed in as a
character list.  Network-visible side effects are recorded as an
explicit action trace. -/

def ADAFRUIT_IO_USERNAME : List Char := "your_username".data

def ADAFRUIT_IO_KEY : List Char := "your_key".data

/-- The full request message of lines 353-362; `Content-Length` is the
decimal rendering of the body length, as `snprintf` produces for
`%d` applied to `json_len`. -/
def http_request_message (feedKey jsonBody : List Char) : List Char :=
  "POST /api/v2/".data ++ ADAFRUIT_IO_USERNAME ++ "/feeds/".data ++ feedKey ++
  "/data HTTP/1.1\r\n".data ++
  "Host: io.adafruit.com\r\n".data ++
  "X-AIO-Key: ".data ++ ADAFRUIT_IO_KEY ++ "\r\n".data ++
  "Content-Type: application/json\r\n".data ++
  "Content-Length: ".data ++ Nat.toDigits 10 jsonBody.length ++ "\r\n".data ++
  "Connection: close\r\n\r\n".data ++
  jsonBody

/-- Network-visible side effects of one uplink attempt. -/
inductive NetAction where
  | createPcb
  | dnsResolve
  | connectAttempt
  | writeRequest
  | freeTlsConfig
deriving DecidableEq

/-- External outcomes consulted by `send_to_adafruit_io`:
`tlsCreateOk` for `altcp_tls_create_config_client` (line 341),
`allocOk` for `http_post_init` (line 348), the open environment for
`http_post_open`, and `finalError` for the error field observed by the
wait loop once `complete` is set. -/
structure SendEnv where
  tlsCreateOk : Bool
  allocOk : Bool
  openEnv : OpenEnv
  finalError : Int
deriving DecidableEq

/-- What `send_to_adafruit_io` leaves behind: its boolean result, the
value of the shared `tls_config` pointer afterwards, and the trace of
network actions performed. -/
structure SendResult where
  success : Bool
  tlsConfig : Option Nat
  actions : List NetAction
deriving DecidableEq

/-- `send_to_adafruit_io` (lines 335-400).  In code order: lazily
create the shared TLS config (lines 340-346), allocate the state
(lines 348-351), compose the request and reject it if `snprintf`
reported 512 or more characters (lines 353-368), open the connection
(lines 372-377: pcb creation, then DNS, with a synchronous cache hit
issuing the connect immediately), run the wait loop, and report
`state->error == 0` (line 396).  No path frees `tls_config`
(line 398). -/
def send_to_adafruit_io (tls : Option Nat) (env : SendEnv)
    (feedKey jsonBody : List Char) : SendResult :=
  let tls := match tls with
    | none => if env.tlsCreateOk then some 1 else none
    | some c => some c
  match tls with
  | none => ⟨false, none, []⟩
  | some c =>
      if env.allocOk then
        let req := http_request_message feedKey jsonBody
        if 512 ≤ req.length then
          ⟨false, some c, []⟩
        else if env.openEnv.pcbOk then
          match env.openEnv.dns with
          | DnsOutcome.failure =>
              ⟨false, some c, [NetAction.createPcb, NetAction.dnsResolve]⟩
          | DnsOutcome.cacheHit =>
              ⟨env.finalError == 0, some c,
               [NetAction.createPcb, NetAction.dnsResolve, NetAction.connectAttempt]⟩
          | DnsOutcome.inProgress =>
              ⟨env.finalError == 0, some c,
               [NetAction.createPcb, NetAction.dnsResolve]⟩
        else
          ⟨false, some c, [NetAction.createPcb]⟩
      else
        ⟨false, some c, []⟩

/-! ### Helper lemmas about the status-line literals -/

theorem isPrefixOf_length_eq {a b buf : List Char} (ha : a.isPrefixOf buf = true)
    (hb : b.isPrefixOf buf = true) (hlen : a.length = b.length) : a = b := by
  rw [List.isPrefixOf_iff_prefix] at ha hb
  exact (List.prefix_of_prefix_length_le ha hb (le_of_eq hlen)).eq_of_length hlen

theorem prefix_excl {a b buf : List Char} (hab : a.length = b.length) (hne : a ≠ b)
    (hb : b.isPrefixOf buf = true) : a.isPrefixOf buf = false := by
  cases hA : a.isPrefixOf buf
  · rfl
  · exact absurd (isPrefixOf_length_eq hA hb hab) hne

/-! ### Concrete evaluation states -/

/-- An in-flight uplink state awaiting its response: live handle, not
complete, no error recorded yet. -/
def awaiting401 : HTTP_POST_STATE_T := ⟨some 1, false, 0, [], 15⟩

/-- `awaiting401` after the receive callback classified a 401 status
line. -/
def afterClassify401 : HTTP_POST_STATE_T :=
  (http_post_recv true awaiting401 (some "HTTP/1.1 401 Unauthorized\r\n".data)).1

/-- `afterClassify401` after the end-of-stream delivery (NULL pbuf). -/
def afterEos401 : HTTP_POST_STATE_T :=
  (http_post_recv true afterClassify401 none).1

/-- An uplink state stuck mid-flight: live handle, not complete. -/
def stuckState : HTTP_POST_STATE_T := ⟨some 1, false, 0, [], 15⟩

/-- A freshly initialised uplink state used for the timeout witness. -/
def idleState : HTTP_POST_STATE_T := ⟨some 7, false, 0, [], 15⟩

/-- A response state with no error recorded. -/
def cleanState : HTTP_POST_STATE_T := ⟨some 2, false, 0, [], 15⟩

/-- An oversized feed key: 512 characters. -/
def longFeedKey : List Char := List.replicate 512 'a'

/-- A representative JSON body, as formatted for value 23.46. -/
def sampleBody : List Char := "\x7b\"value\":\"23.46\"\x7d".data

/-! ### Claim theorems -/

/-- C1 (code evaluation at the failing input): the receive callback
first classifies a 401 response and records `PICO_ERROR_GENERIC`, but
the subsequent end-of-stream delivery overwrites the error field with
0 (line 245) before closing, so the state reaches its terminal state
carrying error 0 — not the previously classified outcome. -/
theorem recv_eos_overwrites_outcome :
    afterClassify401.error = PICO_ERROR_GENERIC ∧
    afterEos401.complete = true ∧ afterEos401.pcb = none ∧
    afterEos401.error = 0 := by
  decide

/-- C2 counterexample: the status line of a 202 response — a 2xx
status — is classified as `unexpectedStatus`, not `success`, because
the classifier compares only against the literal prefixes
"HTTP/1.1 200" and "HTTP/1.1 201". -/
theorem classify_202_not_success :
    classifyStatus "HTTP/1.1 202 Accepted\r\n".data = StatusClass.unexpectedStatus ∧
    classifyStatus "HTTP/1.1 202 Accepted\r\n".data ≠ StatusClass.success := by
  decide

/-- C2 amended: the classifier maps exactly the status lines starting
"HTTP/1.1 200" or "HTTP/1.1 201" to `success`, those starting
"HTTP/1.1 401" to `authFailure`, those starting "HTTP/1.1 404" to
`notFound`, and every other line to `unexpectedStatus` (the four
12-character literals are mutually exclusive on any one buffer). -/
theorem classifyStatus_spec (buf : List Char) :
    ("HTTP/1.1 200".data.isPrefixOf buf = true ∨
        "HTTP/1.1 201".data.isPrefixOf buf = true →
      classifyStatus buf = StatusClass.success) ∧
    ("HTTP/1.1 401".data.isPrefixOf buf = true →
      classifyStatus buf = StatusClass.authFailure) ∧
    ("HTTP/1.1 404".data.isPrefixOf buf = true →
      classifyStatus buf = StatusClass.notFound) ∧
    ("HTTP/1.1 200".data.isPrefixOf buf = false →
      "HTTP/1.1 201".data.isPrefixOf buf = false →
      "HTTP/1.1 401".data.isPrefixOf buf = false →
      "HTTP/1.1 404".data.isPrefixOf buf = false →
      classifyStatus buf = StatusClass.unexpectedStatus) := by
  refine ⟨?_, ?_, ?_, ?_⟩
  · intro h
    rcases h with h | h <;> simp [classifyStatus, h]
  · intro h
    have h200 : "HTTP/1.1 200".data.isPrefixOf buf = false :=
      prefix_excl (by decide) (by decide) h
    have h201 : "HTTP/1.1 201".data.isPrefixOf buf = false :=
      prefix_excl (by decide) (by decide) h
    simp [classifyStatus, h, h200, h201]
  · intro h
    have h200 : "HTTP/1.1 200".data.isPrefixOf buf = false :=
      prefix_excl (by decide) (by decide) h
    have h201 : "HTTP/1.1 201".data.isPrefixOf buf = false :=
      prefix_excl (by decide) (by decide) h
    have h401 : "HTTP/1.1 401".data.isPrefixOf buf = false :=
      prefix_excl (by decide) (by decide) h
    simp [classifyStatus, h, h200, h201, h401]
  · intro h200 h201 h401 h404
    simp [classifyStatus, h200, h201, h401, h404]

/-- Witness for the amended C2: each branch evaluated on a concrete
status line. -/
theorem classifyStatus_spec_witness :
    classifyStatus "HTTP/1.1 200 OK\r\n".data = StatusClass.success ∧
    classifyStatus "HTTP/1.1 401 Unauthorized\r\n".data = StatusClass.authFailure ∧
    classifyStatus "HTTP/1.1 404 Not Found\r\n".data = StatusClass.notFound ∧
    classifyStatus "HTTP/1.1 500 Internal Server Error\r\n".data =
      StatusClass.unexpectedStatus :=
  ⟨(classifyStatus_spec _).1 (Or.inl (by decide)),
   (classifyStatus_spec _).2.1 (by decide),
   (classifyStatus_spec _).2.2.1 (by decide),
   (classifyStatus_spec _).2.2.2 (by decide) (by decide) (by decide) (by decide)⟩

/-- C3 (code evaluation at the failing input): when the caller's
30-second wall-clock deadline fires while the uplink is still
mid-flight, the wait loop sets the completion flag and a timeout error
itself (lines 383-386) but leaves the transport handle live — the
handle-null-when-complete invariant is violated on this path. -/
theorem give_up_leaves_live_handle :
    (wait_loop_give_up stuckState).complete = true ∧
    (wait_loop_give_up stuckState).pcb ≠ none ∧
    (wait_loop_give_up stuckState).error = PICO_ERROR_TIMEOUT := by
  decide

/-- Closing through `http_post_close` does maintain the invariant: the
completion flag is set and the handle nulled, on both the graceful and
the abort path. -/
theorem close_nulls_handle (closeOk : Bool) (state : HTTP_POST_STATE_T) :
    (http_post_close closeOk state).1.complete = true ∧
    (http_post_close closeOk state).1.pcb = none := by
  cases hp : state.pcb <;> simp [http_post_close, hp]

/-- C5: whenever the composed request message reaches 512 characters,
`send_to_adafruit_io` fails and its network-action trace is empty: no
pcb is created, no DNS query is issued, no connect or write is
attempted. -/
theorem send_oversize_rejected (tls : Option Nat) (env : SendEnv)
    (feedKey jsonBody : List Char)
    (h : 512 ≤ (http_request_message feedKey jsonBody).length) :
    (send_to_adafruit_io tls env feedKey jsonBody).success = false ∧
    (send_to_adafruit_io tls env feedKey jsonBody).actions = [] := by
  rcases env with ⟨tc, alloc, ⟨pcbOk, dns, closeOk⟩, fe⟩
  cases tls <;> cases tc <;> cases alloc <;>
    simp [send_to_adafruit_io, h]

/-- Witness for C5: a 512-character feed key makes the composed message
oversized, and the call fails with an empty action trace. -/
theorem send_oversize_rejected_witness :
    (send_to_adafruit_io (some 1) ⟨true, true, ⟨true, DnsOutcome.inProgress, true⟩, 0⟩
        longFeedKey sampleBody).success = false ∧
    (send_to_adafruit_io (some 1) ⟨true, true, ⟨true, DnsOutcome.inProgress, true⟩, 0⟩
        longFeedKey sampleBody).actions = [] :=
  send_oversize_rejected (some 1) ⟨true, true, ⟨true, DnsOutcome.inProgress, true⟩, 0⟩
    longFeedKey sampleBody (by decide)

/-- C6: `http_post_open` registers the periodic poll check with
interval `timeout * 2` (line 309), and firing the poll callback from
any non-terminal state records `PICO_ERROR_TIMEOUT`, sets the
completion flag, and tears the transport handle down — the machine
reaches its terminal state carrying the timeout outcome. -/
theorem poll_timeout_convergence (env : OpenEnv) (closeOk : Bool)
    (s : HTTP_POST_STATE_T) (_hterm : s.complete = false) (hpcb : env.pcbOk = true) :
    (http_post_open env s).2.2 = some (s.timeout * 2) ∧
    (http_post_poll closeOk s).1.error = PICO_ERROR_TIMEOUT ∧
    (http_post_poll closeOk s).1.complete = true ∧
    (http_post_poll closeOk s).1.pcb = none := by
  refine ⟨?_, ?_⟩
  · rcases env with ⟨pcbOk, dns, c⟩
    cases hpcb
    cases dns <;> simp [http_post_open]
  · cases hp : s.pcb <;> cases closeOk <;>
      simp [http_post_poll, http_post_close, hp]

/-- Witness for C6 at a concrete in-flight state. -/
theorem poll_timeout_convergence_witness :
    (http_post_open ⟨true, DnsOutcome.inProgress, true⟩ idleState).2.2 =
      some (idleState.timeout * 2) ∧
    (http_post_poll true idleState).1.error = PICO_ERROR_TIMEOUT ∧
    (http_post_poll true idleState).1.complete = true ∧
    (http_post_poll true idleState).1.pcb = none :=
  poll_timeout_convergence ⟨true, DnsOutcome.inProgress, true⟩ true idleState rfl rfl

/-- C9: if the shared TLS configuration exists when
`send_to_adafruit_io` is called, it is exactly the same afterwards —
on every path, successful or failed — and no path ever emits a
free of the TLS configuration. -/
theorem send_keeps_tls_config (tls : Option Nat) (env : SendEnv)
    (feedKey jsonBody : List Char) (c : Nat) (h : tls = some c) :
    (send_to_adafruit_io tls env feedKey jsonBody).tlsConfig = some c ∧
    NetAction.freeTlsConfig ∉ (send_to_adafruit_io tls env feedKey jsonBody).actions := by
  subst h
  rcases env with ⟨tc, alloc, ⟨pcbOk, dns, closeOk⟩, fe⟩
  cases alloc <;> cases pcbOk <;> cases dns <;>
    by_cases h512 : 512 ≤ (http_request_message feedKey jsonBody).length <;>
    simp [send_to_adafruit_io, h512]

/-- Witness for C9 at a concrete failing uplink (DNS failure). -/
theorem send_keeps_tls_config_witness :
    (send_to_adafruit_io (some 5) ⟨true, true, ⟨true, DnsOutcome.failure, true⟩, -2⟩
        "bmp280-temp".data sampleBody).tlsConfig = some 5 ∧
    NetAction.freeTlsConfig ∉
      (send_to_adafruit_io (some 5) ⟨true, true, ⟨true, DnsOutcome.failure, true⟩, -2⟩
        "bmp280-temp".data sampleBody).actions :=
  send_keeps_tls_config (some 5) ⟨true, true, ⟨true, DnsOutcome.failure, true⟩, -2⟩
    "bmp280-temp".data sampleBody 5 rfl

/-- C10: a delivery whose status line matches none of the recognized
literals leaves the error field unchanged, and if no error was
recorded before (error 0), the caller's verdict computed from that
state is success. -/
theorem recv_unexpected_preserves_error (closeOk : Bool) (s : HTTP_POST_STATE_T)
    (payload : List Char) (h1 : 0 < payload.length)
    (h2 : classifyStatus (payload.take 511) = StatusClass.unexpectedStatus) :
    (http_post_recv closeOk s (some payload)).1.error = s.error ∧
    (s.error = 0 →
      uplinkSuccess (http_post_recv closeOk s (some payload)).1 = true) := by
  constructor
  · simp [http_post_recv, h1, h2]
  · intro h0
    simp [http_post_recv, h1, h2, uplinkSuccess, h0]

/-- Witness for C10: a 500 response leaves a clean state clean, and the
verdict from that state is success. -/
theorem recv_unexpected_preserves_error_witness :
    (http_post_recv true cleanState
        (some "HTTP/1.1 500 Internal Server Error\r\n".data)).1.error =
      cleanState.error ∧
    (cleanState.error = 0 →
      uplinkSuccess (http_post_recv true cleanState
        (some "HTTP/1.1 500 Internal Server Error\r\n".data)).1 = true) :=
  recv_unexpected_preserves_error true cleanState
    "HTTP/1.1 500 Internal Server Error\r\n".data (by decide) (by decide)

end PicoExamples
